import Mathlib

/-!
Shallow embedding of the port-binding reconciliation engine of
`src/rust/src/system/ports.rs` (with its data model from
`src/rust/src/state/mod.rs`), together with theorems settling the
specification claims about it.

External effects (socket binds, subprocess output, the OS socket table and
process snapshot) are passed in explicitly as values; the pure computation on
those values is translated from the Rust source line by line.  Rust string
operations (`find`, `split`, `rsplit`, `split_whitespace`, `lines`,
`starts_with`, `contains`, `parse`) are modelled by structural functions on
the character list underlying a `String`, so that every definition evaluates
inside the kernel.
-/

/-! ## String helpers (models of the Rust `str` operations used by the code) -/

/-- Model of Rust `s.find(sep)` plus slicing: split a character list at the
first occurrence of `sep`, returning the part before and the part after the
separator, or `none` when `sep` does not occur. -/
def charsSplitFirst (sep : List Char) : List Char → Option (List Char × List Char)
  | [] => if sep.isPrefixOf ([] : List Char) then some ([], []) else none
  | c :: cs =>
    if sep.isPrefixOf (c :: cs) then some ([], (c :: cs).drop sep.length)
    else
      match charsSplitFirst sep cs with
      | some (pre, post) => some (c :: pre, post)
      | none => none

/-- Fuel-driven worker for `charsSplitAll`; the fuel is an upper bound on the
number of separator occurrences, so `s.length + 1` always suffices. -/
def charsSplitAllFuel (sep : List Char) : Nat → List Char → List (List Char)
  | 0, s => [s]
  | fuel + 1, s =>
    if sep = [] then [s]
    else
      match charsSplitFirst sep s with
      | none => [s]
      | some (pre, post) => pre :: charsSplitAllFuel sep fuel post

/-- Model of Rust `s.split(sep)`: split at every occurrence of `sep`, left to
right. -/
def charsSplitAll (sep s : List Char) : List (List Char) :=
  charsSplitAllFuel sep (s.length + 1) s

/-- Split a character list at every character satisfying `p` (separator
characters are dropped; empty groups are kept). -/
def splitOnPred (p : Char → Bool) : List Char → List (List Char)
  | [] => [[]]
  | c :: cs =>
    match splitOnPred p cs with
    | [] => [[]]
    | g :: gs => if p c then [] :: g :: gs else (c :: g) :: gs

/-- String-level wrapper of `charsSplitFirst`. -/
def strSplitFirst (sep s : String) : Option (String × String) :=
  (charsSplitFirst sep.data s.data).map (fun q => (⟨q.1⟩, ⟨q.2⟩))

/-- String-level wrapper of `charsSplitAll`, modelling Rust `s.split(sep)`. -/
def strSplitAll (sep s : String) : List String :=
  (charsSplitAll sep.data s.data).map (fun l => ⟨l⟩)

/-- Model of Rust `s.contains(pat)` (substring containment). -/
def strContainsSub (s pat : String) : Bool :=
  (charsSplitFirst pat.data s.data).isSome

/-- Model of Rust `s.starts_with(pat)`. -/
def strStartsWith (s pat : String) : Bool :=
  pat.data.isPrefixOf s.data

/-- Model of Rust `s.split_whitespace()`: split on whitespace and drop empty
groups. -/
def strSplitWhitespace (s : String) : List String :=
  ((splitOnPred Char.isWhitespace s.data).filter (fun l => l ≠ [])).map (fun l => ⟨l⟩)

/-- Model of Rust `s.lines()`: split on newline, drop a final empty line, and
strip one trailing carriage return from each line. -/
def rustLines (s : String) : List String :=
  let parts := splitOnPred (fun c => c == '\n') s.data
  let parts := if parts.getLast? = some ([] : List Char) then parts.dropLast else parts
  parts.map (fun l => if l.getLast? = some '\r' then ⟨l.dropLast⟩ else ⟨l⟩)

/-- Numeric value of an ASCII digit. -/
def digitVal (c : Char) : Nat := c.toNat - 48

/-- Accumulate a decimal number from a digit list; `none` on any non-digit. -/
def digitsToNat (acc : Nat) : List Char → Option Nat
  | [] => some acc
  | c :: cs => if c.isDigit then digitsToNat (acc * 10 + digitVal c) cs else none

/-- Model of Rust `s.parse::<uN>()` for an unsigned type with `bound` values:
an optional leading plus sign, then one or more ASCII digits, rejecting
overflow. -/
def parseUnsigned (bound : Nat) (s : String) : Option Nat :=
  let ds := if strStartsWith s "+" then s.data.drop 1 else s.data
  if ds = [] then none
  else
    match digitsToNat 0 ds with
    | some n => if n < bound then some n else none
    | none => none

/-- Rust `s.parse::<u16>()`. -/
def parseU16 (s : String) : Option Nat := parseUnsigned 65536 s

/-- Rust `s.parse::<u32>()`. -/
def parseU32 (s : String) : Option Nat := parseUnsigned 4294967296 s

/-- Model of Rust `s.rsplit(c).next().unwrap()` for a colon: the substring
after the last colon (the whole string when it has no colon). -/
def afterLastColon (s : String) : String :=
  (strSplitAll ":" s).getLastD s

/-! ## Data model (from `src/rust/src/state/mod.rs`) -/

/-- Source of a detected binding (`BindingSource` in the Rust state module). -/
inductive BindingSource
  | Windows
  | Docker
  | Wsl
  | UnknownShadow
deriving DecidableEq

/-- One observed TCP port binding (`PortBinding`). -/
structure PortBinding where
  pid : Nat
  process_name : String
  local_ip : String
  local_port : Nat
  state : String
  is_loopback : Bool
  is_all_interfaces : Bool
  is_orphan : Bool
  is_system : Bool
  source : BindingSource
  source_detail : String
deriving DecidableEq

/-- Docker container port binding (`DockerPortBinding`). -/
structure DockerPortBinding where
  container_id : String
  container_name : String
  image : String
  host_port : Nat
  container_port : Nat
  protocol : String
deriving DecidableEq

/-- WSL process port binding (`WslPortBinding`). -/
structure WslPortBinding where
  distro : String
  process_name : String
  pid : Nat
  port : Nat
  local_addr : String
deriving DecidableEq

/-- Result of a port scan (`PortScanResult`).  The Rust `conflict_pids` is a
`Vec` collected from a `HashSet` intersection whose iteration order is
unspecified, so it is modelled as a `Finset`. -/
structure PortScanResult where
  bindings : List PortBinding
  conflict_pids : Finset Nat
  orphan_pids : List Nat
  docker_bindings : List DockerPortBinding
  wsl_bindings : List WslPortBinding
  shadow_detected : Bool
deriving DecidableEq

/-- The value of `PortScanResult::default()`. -/
def PortScanResult.defaultResult : PortScanResult :=
  { bindings := []
    conflict_pids := ∅
    orphan_pids := []
    docker_bindings := []
    wsl_bindings := []
    shadow_detected := false }

/-! ## Socket probe (`probe_port_in_use`, ports.rs lines 14-40) -/

/-- Outcome of one `TcpListener::bind` attempt: success, or failure carrying
the optional raw OS error code. -/
inductive BindOutcome
  | ok
  | err (code : Option Int)
deriving DecidableEq

/-- The loop body of `probe_port_in_use` over the fixed address array: a
successful bind returns `false` at once; error code 10048 (WSAEADDRINUSE)
returns `true` at once; any other failure continues with the next address. -/
def probe_loop : List BindOutcome → Bool
  | [] => false
  | BindOutcome.ok :: _ => false
  | BindOutcome.err c :: rest => if c = some 10048 then true else probe_loop rest

/-- The two bind outcomes the environment yields for the IPv4 and IPv6
wildcard addresses at the scanned port. -/
structure ProbeEnv where
  v4 : BindOutcome
  v6 : BindOutcome
deriving DecidableEq

/-- Model of `probe_port_in_use`: run the bind loop over `[0.0.0.0:port, [::]:port]`. -/
def probe_port_in_use (env : ProbeEnv) : Bool :=
  probe_loop [env.v4, env.v6]

/-! ## Docker probe (`get_docker_port_bindings` / `parse_docker_port_mapping`,
ports.rs lines 59-132) -/

/-- The argument list passed to the `docker` executable by
`get_docker_port_bindings` (ports.rs line 65). -/
def docker_ps_args : List String :=
  ["ps", "--format", "\x7b\x7b.ID\x7d\x7d|\x7b\x7b.Names\x7d\x7d|\x7b\x7b.Image\x7d\x7d|\x7b\x7b.Ports\x7d\x7d"]

/-- Whether the container listing asks the Docker CLI for all containers:
`docker ps` shows only running containers unless an all-containers flag
(`-a` / `--all`) is passed. -/
def docker_ps_lists_all_containers : Bool :=
  docker_ps_args.contains "-a" || docker_ps_args.contains "--all" ||
    docker_ps_args.contains "--all=true"

/-- Model of `parse_docker_port_mapping`: split at the first `->`, take the host port
as the text after the last colon of the left part, require it to equal the
target port, then split the right part at the first slash into container port
and protocol (protocol defaults to `tcp` when there is no slash). -/
def parse_docker_port_mapping (mapping : String) (target_port : Nat) :
    Option (Nat × Nat × String) :=
  match strSplitFirst "->" mapping with
  | none => none
  | some (host_part, container_part) =>
    match parseU16 (afterLastColon host_part) with
    | none => none
    | some host_port =>
      if host_port ≠ target_port then none
      else
        let cp : String × String :=
          match strSplitFirst "/" container_part with
          | some (c, proto) => (c, proto)
          | none => (container_part, "tcp")
        match parseU16 cp.1 with
        | none => none
        | some container_port => some (host_port, container_port, cp.2)

/-- The pure part of `get_docker_port_bindings`: parse the captured stdout of
the container listing.  Each line is split on `|` into id, name, image and a
ports field; each `, `-separated mapping of the ports field that parses and
matches the target port yields one record. -/
def get_docker_port_bindings_of_stdout (stdout : String) (port : Nat) :
    List DockerPortBinding :=
  (rustLines stdout).flatMap (fun line =>
    let parts := strSplitAll "|" line
    if parts.length < 4 then []
    else
      let container_id := parts.getD 0 ""
      let container_name := parts.getD 1 ""
      let image := parts.getD 2 ""
      let ports_str := parts.getD 3 ""
      (strSplitAll ", " ports_str).filterMap (fun pm =>
        (parse_docker_port_mapping pm port).map (fun parsed =>
          { container_id := container_id
            container_name := container_name
            image := image
            host_port := parsed.1
            container_port := parsed.2.1
            protocol := parsed.2.2 })))

/-- Model of `get_docker_port_bindings`, with the subprocess result made explicit:
`none` models a failed or unsuccessful `docker ps` invocation, which yields an
empty list. -/
def get_docker_port_bindings (out : Option String) (port : Nat) :
    List DockerPortBinding :=
  match out with
  | some stdout => get_docker_port_bindings_of_stdout stdout port
  | none => []

/-! ## WSL probe (`parse_ss_line` / `parse_ss_process_info` /
`get_wsl_port_bindings`, ports.rs lines 165-259) -/

/-- Model of `parse_ss_process_info`: from text like `users:(("node",pid=1234,fd=21))`
extract the quoted process name and the digits following `pid=`, falling back
to `("unknown", 0)` or a zero pid on any format deviation. -/
def parse_ss_process_info (info : String) : String × Nat :=
  match strSplitFirst "((\"" info with
  | none => ("unknown", 0)
  | some (_, rest) =>
    match strSplitFirst "\"" rest with
    | none => ("unknown", 0)
    | some (process_name, _) =>
      match strSplitFirst "pid=" rest with
      | none => (process_name, 0)
      | some (_, pid_rest) =>
        match parseU32 ⟨pid_rest.data.takeWhile Char.isDigit⟩ with
        | some pid => (process_name, pid)
        | none => (process_name, 0)

/-- Model of `parse_ss_line`: a line of `ss -tlnp` output is split on whitespace; it
needs at least five columns, the fourth is the local address whose text after
the last colon must parse to the target port, and the last column provides
process name and pid. -/
def parse_ss_line (line : String) (target_port : Nat) (distro : String) :
    Option WslPortBinding :=
  let parts := strSplitWhitespace line
  if parts.length < 5 then none
  else
    let local_addr := parts.getD 3 ""
    match parseU16 (afterLastColon local_addr) with
    | none => none
    | some port =>
      if port ≠ target_port then none
      else
        let pn : String × Nat :=
          match parts.getLast? with
          | some last => parse_ss_process_info last
          | none => ("unknown", 0)
        some { distro := distro
               process_name := pn.1
               pid := pn.2
               port := port
               local_addr := local_addr }

/-- Model of `get_wsl_port_bindings`, with the per-distro `ss -tlnp` stdout made
explicit (`none` models a failed invocation, which skips that distro).  The
first line of each output (the header) is skipped. -/
def get_wsl_port_bindings (wsl_outputs : List (String × Option String))
    (port : Nat) : List WslPortBinding :=
  wsl_outputs.flatMap (fun d =>
    match d.2 with
    | none => []
    | some stdout =>
      ((rustLines stdout).drop 1).filterMap (fun line => parse_ss_line line port d.1))

/-! ## Windows stack reader (`list_bindings`, ports.rs lines 353-456) -/

/-- A process table entry as seen through `sysinfo`: its name, and whether a
kill request on it succeeds (used by `kill_process`). -/
structure Proc where
  name : String
  kill_succeeds : Bool
deriving DecidableEq

/-- One TCP socket table entry as seen through `netstat2`: the stringified
local address, the local port, the stringified connection state, and the
associated pids. -/
structure TcpSocketEntry where
  local_addr : String
  local_port : Nat
  state : String
  pids : List Nat
deriving DecidableEq

/-- The loop body of `list_bindings` for one socket table entry matching the
target port: resolve the first associated pid against the process snapshot,
classify system/orphan status and address scope, and build the binding. -/
def windows_binding (snap : List (Nat × Proc)) (entry : TcpSocketEntry) :
    PortBinding :=
  let local_ip := entry.local_addr
  let pid := entry.pids.headD 0
  let is_system := pid == 0 || pid == 4
  let name_orphan : String × Bool :=
    if is_system then
      (if pid == 0 then "[System Idle]" else "[System]", false)
    else if 0 < pid then
      match snap.lookup pid with
      | some p => (p.name, false)
      | none => ("<orphaned>", true)
    else ("<unknown>", false)
  let is_loopback := strStartsWith local_ip "127." || local_ip == "::1"
  let is_all_interfaces := local_ip == "0.0.0.0" || local_ip == "::"
  { pid := pid
    process_name := name_orphan.1
    local_ip := local_ip
    local_port := entry.local_port
    state := entry.state
    is_loopback := is_loopback
    is_all_interfaces := is_all_interfaces
    is_orphan := name_orphan.2
    is_system := is_system
    source := BindingSource.Windows
    source_detail := "" }

/-- Model of `list_bindings`: filter the socket table to the target port, build one
binding per entry, then derive `conflict_pids` (pids holding both a loopback
and an all-interfaces binding) and `orphan_pids`.  `sockets = none` models a
failed `get_sockets_info` call, which returns the default result. -/
def list_bindings (port : Nat) (sockets : Option (List TcpSocketEntry))
    (snap : List (Nat × Proc)) : PortScanResult :=
  match sockets with
  | none => PortScanResult.defaultResult
  | some socks =>
    let bindings :=
      (socks.filter (fun e => e.local_port == port)).map (windows_binding snap)
    let loopback_pids : Finset Nat :=
      ((bindings.filter (fun b => b.is_loopback)).map (fun b => b.pid)).toFinset
    let all_interface_pids : Finset Nat :=
      ((bindings.filter (fun b => b.is_all_interfaces)).map (fun b => b.pid)).toFinset
    let conflict_pids := loopback_pids ∩ all_interface_pids
    let orphan_pids := (bindings.filter (fun b => b.is_orphan)).map (fun b => b.pid)
    { bindings := bindings
      conflict_pids := conflict_pids
      orphan_pids := orphan_pids
      docker_bindings := []
      wsl_bindings := []
      shadow_detected := false }

/-! ## Reconciliation engine (`list_bindings_enhanced`, ports.rs lines 262-351) -/

/-- The synthesized `PortBinding` for one Docker record (ports.rs lines
279-291). -/
def docker_to_binding (db : DockerPortBinding) : PortBinding :=
  { pid := 0
    process_name := db.container_name ++ " (" ++ db.image ++ ")"
    local_ip := "0.0.0.0"
    local_port := db.host_port
    state := "LISTEN"
    is_loopback := false
    is_all_interfaces := true
    is_orphan := false
    is_system := false
    source := BindingSource.Docker
    source_detail := db.container_id }

/-- The synthesized `PortBinding` for one WSL record (ports.rs lines 311-323);
the local ip is the second-from-last colon segment of the guest address. -/
def wsl_to_binding (wb : WslPortBinding) : PortBinding :=
  { pid := wb.pid
    process_name := wb.process_name ++ " [WSL:" ++ wb.distro ++ "]"
    local_ip := (strSplitAll ":" wb.local_addr).reverse.getD 1 "0.0.0.0"
    local_port := wb.port
    state := "LISTEN"
    is_loopback := strStartsWith wb.local_addr "127." || strStartsWith wb.local_addr "[::1]"
    is_all_interfaces := strStartsWith wb.local_addr "0.0.0.0"
      || strStartsWith wb.local_addr "[::]" || strStartsWith wb.local_addr "*"
    is_orphan := false
    is_system := false
    source := BindingSource.Wsl
    source_detail := wb.distro }

/-- The Docker-process heuristic of the deduplication rule (ports.rs lines
303-305). -/
def is_docker_process (wb : WslPortBinding) : Bool :=
  strContainsSub wb.process_name "docker"
    || strContainsSub wb.process_name "containerd"
    || strContainsSub wb.process_name "com.docker"

/-- The synthetic placeholder binding appended when a shadow binding is
detected (ports.rs lines 335-347). -/
def shadow_binding (port : Nat) : PortBinding :=
  { pid := 0
    process_name := "<shadow binding>"
    local_ip := "?"
    local_port := port
    state := "UNKNOWN"
    is_loopback := false
    is_all_interfaces := true
    is_orphan := false
    is_system := false
    source := BindingSource.UnknownShadow
    source_detail := "Port in use but source not detected" }

/-- Everything the external world contributes to one enhanced scan: the
socket table, the process snapshot, the two bind outcomes of the probe, the
Docker liveness answer, the stdout of the container listing, and the per-
distro stdout of the guest socket enumeration. -/
structure ScanEnv where
  sockets : Option (List TcpSocketEntry)
  snapshot : List (Nat × Proc)
  probe : ProbeEnv
  docker_running : Bool
  docker_stdout : Option String
  wsl_outputs : List (String × Option String)
deriving DecidableEq

/-- Model of `list_bindings_enhanced`: the Windows scan is the baseline; the socket
probe and the pre-merge visibility of Windows bindings are recorded; Docker
records (when the daemon is live) and non-duplicate WSL records are appended
as synthesized bindings; the shadow verdict is computed from the probe and
the three per-source lists, appending one placeholder binding when it is
positive. -/
def list_bindings_enhanced (port : Nat) (env : ScanEnv) : PortScanResult :=
  let result := list_bindings port env.sockets env.snapshot
  let port_in_use := probe_port_in_use env.probe
  let has_visible_bindings := !result.bindings.isEmpty
  let docker_bindings :=
    if env.docker_running then get_docker_port_bindings env.docker_stdout port
    else []
  let bindings1 := result.bindings ++ docker_bindings.map docker_to_binding
  let wsl_bindings := get_wsl_port_bindings env.wsl_outputs port
  let docker_has_port := !docker_bindings.isEmpty
  let bindings2 := bindings1 ++
    (wsl_bindings.filter (fun wb => !(docker_has_port && is_docker_process wb))).map
      wsl_to_binding
  let shadow_detected := port_in_use && !has_visible_bindings
    && docker_bindings.isEmpty && wsl_bindings.isEmpty
  let bindings3 := if shadow_detected then bindings2 ++ [shadow_binding port] else bindings2
  { bindings := bindings3
    conflict_pids := result.conflict_pids
    orphan_pids := result.orphan_pids
    docker_bindings := docker_bindings
    wsl_bindings := wsl_bindings
    shadow_detected := shadow_detected }

/-! ## Remediation operations (`kill_process` / `suggest_free_port`,
ports.rs lines 458-483) -/

/-- Observable side effects of `kill_process`: refreshing the process
snapshot, and attempting to kill a pid. -/
inductive KillEffect
  | refresh_snapshot
  | kill_attempt (pid : Nat)
deriving DecidableEq

/-- Model of `kill_process`: pid 0 is rejected up front with no effect; otherwise the
snapshot is refreshed and the pid resolved, a missing process or a failed
kill yielding a descriptive error. -/
def kill_process (pid : Nat) (snap : List (Nat × Proc)) :
    Except String Unit × List KillEffect :=
  if pid == 0 then (Except.error "Cannot kill PID 0", [])
  else
    match snap.lookup pid with
    | some p =>
      if p.kill_succeeds then
        (Except.ok (), [KillEffect.refresh_snapshot, KillEffect.kill_attempt pid])
      else
        (Except.error ("Failed to kill process " ++ toString pid),
          [KillEffect.refresh_snapshot, KillEffect.kill_attempt pid])
    | none =>
      (Except.error ("Process " ++ toString pid ++ " not found"),
        [KillEffect.refresh_snapshot])

/-- Model of `suggest_free_port`: the first port of the inclusive range for which the
socket probe (given here as an oracle `in_use`) reports free. -/
def suggest_free_port (start stop : Nat) (in_use : Nat → Bool) : Option Nat :=
  (List.range' start (stop + 1 - start)).find? (fun port => !in_use port)

/-- A concrete scan environment for the deduplication example: one Docker
container publishing port 8080 and one WSL distro whose guest reports the
Docker backend process listening on the same port. -/
def dedup_example_env : ScanEnv :=
  { sockets := some []
    snapshot := []
    probe := ⟨BindOutcome.err (some 10048), BindOutcome.ok⟩
    docker_running := true
    docker_stdout := some "abc123|web|nginx|0.0.0.0:8080->80/tcp"
    wsl_outputs := [("Ubuntu",
      some "header\nLISTEN 0 4096 0.0.0.0:8080 0.0.0.0:* users:((\"com.docker.backend\",pid=77,fd=3))")] }

/-! ## Helper lemmas -/

/-- Fields of `windows_binding`: the binding's pid is the first associated pid
of the entry (0 when there is none). -/
theorem windows_binding_pid (snap : List (Nat × Proc)) (e : TcpSocketEntry) :
    (windows_binding snap e).pid = e.pids.headD 0 := rfl

/-- Fields of `windows_binding`: the binding keeps the entry's local port. -/
theorem windows_binding_local_port (snap : List (Nat × Proc)) (e : TcpSocketEntry) :
    (windows_binding snap e).local_port = e.local_port := rfl

/-- Fields of `windows_binding`: the source is the Windows stack. -/
theorem windows_binding_source (snap : List (Nat × Proc)) (e : TcpSocketEntry) :
    (windows_binding snap e).source = BindingSource.Windows := rfl

/-- The bindings of a successful Windows scan are the port-filtered socket
entries mapped through `windows_binding`. -/
theorem list_bindings_bindings_eq (port : Nat) (socks : List TcpSocketEntry)
    (snap : List (Nat × Proc)) :
    (list_bindings port (some socks) snap).bindings
      = (socks.filter (fun e => e.local_port == port)).map (windows_binding snap) := rfl

/-- The orphan pids of a successful Windows scan are the pids of its orphan
bindings, in order. -/
theorem list_bindings_orphan_eq (port : Nat) (socks : List TcpSocketEntry)
    (snap : List (Nat × Proc)) :
    (list_bindings port (some socks) snap).orphan_pids
      = (((socks.filter (fun e => e.local_port == port)).map (windows_binding snap)).filter
          (fun b => b.is_orphan)).map (fun b => b.pid) := rfl

/-- Characterization of the orphan flag: a Windows binding is an orphan
exactly when its pid is neither 0 nor 4 and is absent from the snapshot. -/
theorem windows_binding_orphan_iff (snap : List (Nat × Proc)) (e : TcpSocketEntry) :
    (windows_binding snap e).is_orphan = true ↔
      (e.pids.headD 0 ≠ 0 ∧ e.pids.headD 0 ≠ 4 ∧ snap.lookup (e.pids.headD 0) = none) := by
  simp only [windows_binding]
  generalize e.pids.headD 0 = n
  split_ifs with h1 h2
  · simp only [Bool.or_eq_true, beq_iff_eq] at h1
    constructor
    · intro h; exact absurd h (by simp)
    · rintro ⟨a0, a4, -⟩; exfalso; omega
  · simp only [Bool.or_eq_true, beq_iff_eq] at h1
    push_neg at h1
    cases hl : snap.lookup n with
    | none => simp [h1.1, h1.2]
    | some p => simp
  · simp only [Bool.or_eq_true, beq_iff_eq] at h1
    push_neg at h1
    exfalso; omega

/-- A non-system pid absent from the snapshot produces the orphan sentinel
name and the orphan flag. -/
theorem windows_binding_orphan_name (snap : List (Nat × Proc)) (e : TcpSocketEntry)
    (h0 : e.pids.headD 0 ≠ 0) (h4 : e.pids.headD 0 ≠ 4)
    (hl : snap.lookup (e.pids.headD 0) = none) :
    (windows_binding snap e).process_name = "<orphaned>"
      ∧ (windows_binding snap e).is_orphan = true := by
  simp only [windows_binding]
  generalize hn : e.pids.headD 0 = n
  rw [hn] at h0 h4 hl
  split_ifs with h1 h2 h3
  · simp only [Bool.or_eq_true, beq_iff_eq] at h1
    exfalso; omega
  · simp only [Bool.or_eq_true, beq_iff_eq] at h1
    exfalso; omega
  · rw [hl]
    simp
  · simp only [Bool.or_eq_true, beq_iff_eq] at h1
    push_neg at h1
    exfalso; omega

/-- A pid of 0 or 4 produces a system binding that is never an orphan. -/
theorem windows_binding_system (snap : List (Nat × Proc)) (e : TcpSocketEntry)
    (h : e.pids.headD 0 = 0 ∨ e.pids.headD 0 = 4) :
    (windows_binding snap e).is_system = true
      ∧ (windows_binding snap e).is_orphan = false := by
  simp only [windows_binding]
  generalize hn : e.pids.headD 0 = n
  rw [hn] at h
  rcases h with h | h <;> subst h <;> simp

/-- Projection of the enhanced scan: its stored Docker records. -/
theorem enhanced_docker_eq (port : Nat) (env : ScanEnv) :
    (list_bindings_enhanced port env).docker_bindings
      = (if env.docker_running then get_docker_port_bindings env.docker_stdout port
         else []) := rfl

/-- Projection of the enhanced scan: its stored WSL records. -/
theorem enhanced_wsl_eq (port : Nat) (env : ScanEnv) :
    (list_bindings_enhanced port env).wsl_bindings
      = get_wsl_port_bindings env.wsl_outputs port := rfl

/-- Projection of the enhanced scan: the shadow verdict as computed by the
source (the pre-merge Windows visibility appears doubly negated). -/
theorem enhanced_shadow_eq (port : Nat) (env : ScanEnv) :
    (list_bindings_enhanced port env).shadow_detected
      = (probe_port_in_use env.probe
          && !(!(list_bindings port env.sockets env.snapshot).bindings.isEmpty)
          && (list_bindings_enhanced port env).docker_bindings.isEmpty
          && (list_bindings_enhanced port env).wsl_bindings.isEmpty) := rfl

/-- Projection of the enhanced scan: the merged binding list is Windows
bindings, then synthesized Docker bindings, then deduplicated synthesized WSL
bindings, then the shadow placeholder when the verdict is positive. -/
theorem enhanced_bindings_eq (port : Nat) (env : ScanEnv) :
    (list_bindings_enhanced port env).bindings
      = (if (list_bindings_enhanced port env).shadow_detected then
          (list_bindings port env.sockets env.snapshot).bindings
            ++ (list_bindings_enhanced port env).docker_bindings.map docker_to_binding
            ++ (((list_bindings_enhanced port env).wsl_bindings.filter
                (fun wb => !(!(list_bindings_enhanced port env).docker_bindings.isEmpty
                    && is_docker_process wb))).map wsl_to_binding)
            ++ [shadow_binding port]
         else
          (list_bindings port env.sockets env.snapshot).bindings
            ++ (list_bindings_enhanced port env).docker_bindings.map docker_to_binding
            ++ (((list_bindings_enhanced port env).wsl_bindings.filter
                (fun wb => !(!(list_bindings_enhanced port env).docker_bindings.isEmpty
                    && is_docker_process wb))).map wsl_to_binding)) := rfl

/-- Projection of the enhanced scan: conflict pids come unchanged from the
Windows scan. -/
theorem enhanced_conflict_eq (port : Nat) (env : ScanEnv) :
    (list_bindings_enhanced port env).conflict_pids
      = (list_bindings port env.sockets env.snapshot).conflict_pids := rfl

/-- Fields of `docker_to_binding`: the source is Docker. -/
theorem docker_to_binding_source (db : DockerPortBinding) :
    (docker_to_binding db).source = BindingSource.Docker := rfl

/-- Fields of `wsl_to_binding`: the source is WSL. -/
theorem wsl_to_binding_source (wb : WslPortBinding) :
    (wsl_to_binding wb).source = BindingSource.Wsl := rfl

/-- Mapping through a constructor whose source is not WSL contributes nothing
to the WSL filter. -/
theorem filter_wsl_of_ne {α : Type} (f : α → PortBinding)
    (hf : ∀ a, (f a).source ≠ BindingSource.Wsl) (l : List α) :
    (l.map f).filter (fun b => b.source == BindingSource.Wsl) = [] := by
  rw [List.filter_map]
  have h : (l.filter ((fun b => b.source == BindingSource.Wsl) ∘ f)) = [] := by
    apply List.filter_eq_nil_iff.mpr
    intro a _
    simpa using hf a
  rw [h, List.map_nil]

/-- Windows scan bindings contribute nothing to the WSL filter. -/
theorem filter_wsl_windows (port : Nat) (sockets : Option (List TcpSocketEntry))
    (snap : List (Nat × Proc)) :
    ((list_bindings port sockets snap).bindings.filter
      (fun b => b.source == BindingSource.Wsl)) = [] := by
  cases sockets with
  | none => rfl
  | some socks =>
    rw [list_bindings_bindings_eq]
    exact filter_wsl_of_ne _ (fun a => by rw [windows_binding_source]; decide) _

/-- Synthesized Docker bindings contribute nothing to the WSL filter. -/
theorem filter_wsl_docker (D : List DockerPortBinding) :
    ((D.map docker_to_binding).filter (fun b => b.source == BindingSource.Wsl)) = [] :=
  filter_wsl_of_ne _ (fun a => by rw [docker_to_binding_source]; decide) D

/-- Synthesized WSL bindings pass the WSL filter unchanged. -/
theorem filter_wsl_wsl (W : List WslPortBinding) :
    ((W.map wsl_to_binding).filter (fun b => b.source == BindingSource.Wsl))
      = W.map wsl_to_binding := by
  rw [List.filter_map]
  congr 1
  apply List.filter_eq_self.mpr
  intro a _
  simp [wsl_to_binding_source]

/-- Any successful parse of a Docker port mapping carries the target port as
its host port. -/
theorem parse_docker_port_mapping_target (mapping : String) (t : Nat)
    (r : Nat × Nat × String) (h : parse_docker_port_mapping mapping t = some r) :
    r.1 = t := by
  unfold parse_docker_port_mapping at h
  cases hs : strSplitFirst "->" mapping with
  | none => rw [hs] at h; simp at h
  | some q =>
    rw [hs] at h
    obtain ⟨host_part, container_part⟩ := q
    dsimp only at h
    cases hp : parseU16 (afterLastColon host_part) with
    | none => rw [hp] at h; simp at h
    | some host_port =>
      rw [hp] at h
      dsimp only at h
      split at h
      · simp at h
      · rename_i hne
        cases hss : strSplitFirst "/" container_part with
        | none =>
          rw [hss] at h
          dsimp only at h
          cases hc : parseU16 container_part with
          | none => rw [hc] at h; simp at h
          | some c =>
            rw [hc] at h
            cases h
            simpa using not_ne_iff.mp hne
        | some cp =>
          rw [hss] at h
          obtain ⟨c1, proto⟩ := cp
          dsimp only at h
          cases hc : parseU16 c1 with
          | none => rw [hc] at h; simp at h
          | some c =>
            rw [hc] at h
            cases h
            simpa using not_ne_iff.mp hne

/-- Any successfully parsed `ss` row carries the target port. -/
theorem parse_ss_line_target (line : String) (t : Nat) (d : String)
    (wb : WslPortBinding) (h : parse_ss_line line t d = some wb) : wb.port = t := by
  unfold parse_ss_line at h
  dsimp only at h
  split at h
  · simp at h
  · cases hp : parseU16 (afterLastColon ((strSplitWhitespace line).getD 3 "")) with
    | none => rw [hp] at h; simp at h
    | some port =>
      rw [hp] at h
      dsimp only at h
      split at h
      · simp at h
      · rename_i hne
        cases h
        simpa using not_ne_iff.mp hne

/-- Every Docker record produced for a target port has that host port. -/
theorem get_docker_port_bindings_target (out : Option String) (t : Nat)
    (db : DockerPortBinding) (h : db ∈ get_docker_port_bindings out t) :
    db.host_port = t := by
  cases out with
  | none => simp [get_docker_port_bindings] at h
  | some stdout =>
    simp only [get_docker_port_bindings, get_docker_port_bindings_of_stdout] at h
    rw [List.mem_flatMap] at h
    obtain ⟨line, hline, hmem⟩ := h
    split at hmem
    · simp at hmem
    · rw [List.mem_filterMap] at hmem
      obtain ⟨pm, hpm, hparse⟩ := hmem
      rw [Option.map_eq_some'] at hparse
      obtain ⟨r, hr, rfl⟩ := hparse
      exact parse_docker_port_mapping_target pm t r hr

/-- Every WSL record produced for a target port has that port. -/
theorem get_wsl_port_bindings_target (outs : List (String × Option String)) (t : Nat)
    (wb : WslPortBinding) (h : wb ∈ get_wsl_port_bindings outs t) : wb.port = t := by
  simp only [get_wsl_port_bindings] at h
  rw [List.mem_flatMap] at h
  obtain ⟨d, hd, hmem⟩ := h
  cases hdd : d.2 with
  | none => rw [hdd] at hmem; simp at hmem
  | some stdout =>
    rw [hdd] at hmem
    rw [List.mem_filterMap] at hmem
    obtain ⟨line, hline, hparse⟩ := hmem
    exact parse_ss_line_target line t d.1 wb hparse

/-- Every binding of the Windows scan carries the scanned port. -/
theorem list_bindings_local_port (port : Nat) (sockets : Option (List TcpSocketEntry))
    (snap : List (Nat × Proc)) (b : PortBinding)
    (hb : b ∈ (list_bindings port sockets snap).bindings) : b.local_port = port := by
  cases sockets with
  | none => simp [list_bindings, PortScanResult.defaultResult] at hb
  | some socks =>
    rw [list_bindings_bindings_eq] at hb
    obtain ⟨e, he, rfl⟩ := List.mem_map.mp hb
    obtain ⟨hmem, hport⟩ := List.mem_filter.mp he
    rw [windows_binding_local_port]
    simpa using hport

/-- A successful `find?` over an arithmetic range yields its least
qualifying member. -/
theorem range_find_some (f : Nat → Bool) :
    ∀ (n s p : Nat), (List.range' s n).find? (fun x => !f x) = some p →
      s ≤ p ∧ p < s + n ∧ f p = false ∧ ∀ q, s ≤ q → q < p → f q = true := by
  intro n
  induction n with
  | zero => intro s p h; simp at h
  | succ n ih =>
    intro s p h
    rw [List.range'_succ] at h
    cases hf : f s with
    | false =>
      rw [List.find?_cons_of_pos _ (by simp [hf])] at h
      cases h
      exact ⟨Nat.le_refl _, by omega, hf, fun q h1 h2 => by omega⟩
    | true =>
      rw [List.find?_cons_of_neg _ (by simp [hf])] at h
      obtain ⟨h1, h2, h3, h4⟩ := ih (s + 1) p h
      refine ⟨by omega, by omega, h3, fun q hq1 hq2 => ?_⟩
      rcases Nat.eq_or_lt_of_le hq1 with rfl | hlt
      · exact hf
      · exact h4 q hlt hq2

/-- `find?` over an arithmetic range fails when no member qualifies. -/
theorem range_find_none (f : Nat → Bool) (s n : Nat)
    (h : ∀ q, s ≤ q → q < s + n → f q = true) :
    (List.range' s n).find? (fun x => !f x) = none := by
  rw [List.find?_eq_none]
  intro x hx
  rw [List.mem_range'_1] at hx
  simp [h x hx.1 hx.2]

/-! ## Claim theorems -/

/-- C1: the enhanced scan sets `shadow_detected` exactly when the socket
probe reports the port in use and the Windows-stack, Docker and WSL binding
lists are all empty; and whenever the verdict is positive the resulting
binding list is exactly the one synthetic `UnknownShadow` placeholder (pid 0,
address "?", state "UNKNOWN", all-interfaces) for the scanned port. -/
theorem C1_shadow (port : Nat) (env : ScanEnv) :
    ((list_bindings_enhanced port env).shadow_detected
      = (probe_port_in_use env.probe
          && (list_bindings port env.sockets env.snapshot).bindings.isEmpty
          && (list_bindings_enhanced port env).docker_bindings.isEmpty
          && (list_bindings_enhanced port env).wsl_bindings.isEmpty))
    ∧ ((list_bindings_enhanced port env).shadow_detected = true →
        (list_bindings_enhanced port env).bindings = [shadow_binding port]) := by
  constructor
  · rw [enhanced_shadow_eq, Bool.not_not]
  · intro h
    have h2 := h
    rw [enhanced_shadow_eq, Bool.and_eq_true, Bool.and_eq_true, Bool.and_eq_true,
      Bool.not_not] at h2
    obtain ⟨⟨⟨hp, hw⟩, hd⟩, hwsl⟩ := h2
    have hwl : (list_bindings port env.sockets env.snapshot).bindings = [] :=
      List.isEmpty_iff.mp hw
    have hdl : (list_bindings_enhanced port env).docker_bindings = [] :=
      List.isEmpty_iff.mp hd
    have hwsll : (list_bindings_enhanced port env).wsl_bindings = [] :=
      List.isEmpty_iff.mp hwsl
    rw [enhanced_bindings_eq, h, if_pos rfl, hwl, hdl, hwsll]
    simp

/-- C1 witness: a concrete in-use port with no visible source yields exactly
the placeholder binding. -/
theorem C1_witness :
    (list_bindings_enhanced 8080
      { sockets := some [], snapshot := [],
        probe := ⟨BindOutcome.err (some 10048), BindOutcome.ok⟩,
        docker_running := false, docker_stdout := none,
        wsl_outputs := [] }).bindings
      = [shadow_binding 8080] :=
  (C1_shadow 8080 _).2 (by decide)

/-- C2: `conflict_pids` is exactly the set of pids holding both a loopback
binding and an all-interfaces binding on the scanned port; in particular a
pid bound on both 127.0.0.1 and 0.0.0.0 is in it, and a pid bound on only one
of the two address types is not. -/
theorem C2_conflict_pids :
    (∀ (port : Nat) (sockets : Option (List TcpSocketEntry)) (snap : List (Nat × Proc))
        (pid : Nat),
      pid ∈ (list_bindings port sockets snap).conflict_pids ↔
        ((∃ b ∈ (list_bindings port sockets snap).bindings, b.pid = pid ∧ b.is_loopback = true)
          ∧ (∃ b ∈ (list_bindings port sockets snap).bindings,
              b.pid = pid ∧ b.is_all_interfaces = true)))
    ∧ 42 ∈ (list_bindings 80 (some [⟨"127.0.0.1", 80, "LISTEN", [42]⟩,
        ⟨"0.0.0.0", 80, "LISTEN", [42]⟩]) [(42, ⟨"srv", true⟩)]).conflict_pids
    ∧ 42 ∉ (list_bindings 80 (some [⟨"127.0.0.1", 80, "LISTEN", [42]⟩])
        [(42, ⟨"srv", true⟩)]).conflict_pids := by
  refine ⟨?_, by decide, by decide⟩
  intro port sockets snap pid
  cases sockets with
  | none => simp [list_bindings, PortScanResult.defaultResult]
  | some socks =>
    simp only [list_bindings]
    simp only [Finset.mem_inter, List.mem_toFinset, List.mem_map, List.mem_filter]
    constructor
    · rintro ⟨⟨b1, ⟨hb1, hl1⟩, hp1⟩, ⟨b2, ⟨hb2, hl2⟩, hp2⟩⟩
      exact ⟨⟨b1, hb1, hp1, hl1⟩, ⟨b2, hb2, hp2, hl2⟩⟩
    · rintro ⟨⟨b1, hb1, hp1, hl1⟩, ⟨b2, hb2, hp2, hl2⟩⟩
      exact ⟨⟨b1, ⟨hb1, hl1⟩, hp1⟩, ⟨b2, ⟨hb2, hl2⟩, hp2⟩⟩

/-- C3: a Windows-stack binding whose pid is nonzero, not the reserved kernel
pid 4, and absent from the process snapshot is an orphan with the orphaned
sentinel name and its pid listed in `orphan_pids`; a binding whose pid is 0
or 4 is a system binding, never an orphan, and its pid never appears in
`orphan_pids`. -/
theorem C3_orphan_system (port : Nat) (socks : List TcpSocketEntry)
    (snap : List (Nat × Proc)) (b : PortBinding)
    (hb : b ∈ (list_bindings port (some socks) snap).bindings) :
    ((b.pid ≠ 0 ∧ b.pid ≠ 4 ∧ snap.lookup b.pid = none) →
      b.is_orphan = true ∧ b.process_name = "<orphaned>"
        ∧ b.pid ∈ (list_bindings port (some socks) snap).orphan_pids)
    ∧ ((b.pid = 0 ∨ b.pid = 4) →
      b.is_system = true ∧ b.is_orphan = false
        ∧ b.pid ∉ (list_bindings port (some socks) snap).orphan_pids) := by
  rw [list_bindings_bindings_eq] at hb
  obtain ⟨e, he, rfl⟩ := List.mem_map.mp hb
  constructor
  · rintro ⟨h0, h4, hl⟩
    rw [windows_binding_pid] at h0 h4 hl
    obtain ⟨hname, horph⟩ := windows_binding_orphan_name snap e h0 h4 hl
    refine ⟨horph, hname, ?_⟩
    rw [list_bindings_orphan_eq]
    exact List.mem_map.mpr ⟨windows_binding snap e,
      List.mem_filter.mpr ⟨hb, horph⟩, rfl⟩
  · intro hsys
    rw [windows_binding_pid] at hsys
    obtain ⟨hs, ho⟩ := windows_binding_system snap e hsys
    refine ⟨hs, ho, ?_⟩
    rw [list_bindings_orphan_eq]
    intro hmem
    obtain ⟨b2, hb2, hpid⟩ := List.mem_map.mp hmem
    obtain ⟨hb2mem, horph⟩ := List.mem_filter.mp hb2
    obtain ⟨e2, he2, rfl⟩ := List.mem_map.mp hb2mem
    obtain ⟨g0, g4, gl⟩ := (windows_binding_orphan_iff snap e2).mp horph
    rw [windows_binding_pid, windows_binding_pid] at hpid
    rcases hsys with h | h <;> omega

/-- C3 witness: a concrete socket entry whose pid 1234 is absent from an
empty snapshot yields the orphan classification and orphan-pid membership. -/
theorem C3_witness :
    ((windows_binding ([] : List (Nat × Proc)) ⟨"127.0.0.1", 80, "LISTEN", [1234]⟩).is_orphan = true
      ∧ (windows_binding ([] : List (Nat × Proc)) ⟨"127.0.0.1", 80, "LISTEN", [1234]⟩).process_name
          = "<orphaned>"
      ∧ (windows_binding ([] : List (Nat × Proc)) ⟨"127.0.0.1", 80, "LISTEN", [1234]⟩).pid
          ∈ (list_bindings 80 (some [⟨"127.0.0.1", 80, "LISTEN", [1234]⟩]) []).orphan_pids) :=
  (C3_orphan_system 80 [⟨"127.0.0.1", 80, "LISTEN", [1234]⟩] [] _ (by decide)).1
    ⟨by decide, by decide, by decide⟩

/-- C4: the WSL-sourced entries of the merged binding list are exactly the
WSL records surviving the deduplication rule (suppressed only when Docker
records exist for the port and the process name matches a Docker-related
substring); concretely, with a Docker container and the WSL-visible
`com.docker.backend` process both on port 8080, the merged list contains the
Docker entry and no WSL entry. -/
theorem C4_dedup :
    (∀ (port : Nat) (env : ScanEnv),
      ((list_bindings_enhanced port env).bindings.filter
          (fun b => b.source == BindingSource.Wsl))
        = (((list_bindings_enhanced port env).wsl_bindings.filter
              (fun wb => !(!(list_bindings_enhanced port env).docker_bindings.isEmpty
                  && is_docker_process wb))).map wsl_to_binding))
    ∧ (docker_to_binding ⟨"abc123", "web", "nginx", 8080, 80, "tcp"⟩
        ∈ (list_bindings_enhanced 8080 dedup_example_env).bindings)
    ∧ ((list_bindings_enhanced 8080 dedup_example_env).bindings.filter
          (fun b => b.source == BindingSource.Wsl) = []) := by
  refine ⟨?_, by decide, by decide⟩
  intro port env
  rw [enhanced_bindings_eq]
  split
  · rw [List.filter_append, List.filter_append, List.filter_append,
      filter_wsl_windows, filter_wsl_docker, filter_wsl_wsl]
    have hs : (([shadow_binding port]).filter
        (fun b => b.source == BindingSource.Wsl)) = [] := rfl
    rw [hs]
    simp
  · rw [List.filter_append, List.filter_append,
      filter_wsl_windows, filter_wsl_docker, filter_wsl_wsl]
    simp

/-- C5 counterexample: the container listing does not pass an all-containers
flag, so `docker ps` enumerates only running containers, contradicting the
claim that stopped containers are included. -/
theorem C5_counterexample : docker_ps_lists_all_containers = false := by decide

/-- C5 (amended): the container listing enumerates only running containers
(its `docker ps` invocation passes no `-a`/`--all` flag), gathering per-
container records (id, name, image, ports field) from which port mappings are
parsed. -/
theorem C5_running_only :
    docker_ps_lists_all_containers = false
    ∧ docker_ps_args =
        ["ps", "--format", "\x7b\x7b.ID\x7d\x7d|\x7b\x7b.Names\x7d\x7d|\x7b\x7b.Image\x7d\x7d|\x7b\x7b.Ports\x7d\x7d"]
    ∧ get_docker_port_bindings (some "abc123|web|nginx:latest|0.0.0.0:8080->80/tcp") 8080
        = [{ container_id := "abc123", container_name := "web", image := "nginx:latest",
             host_port := 8080, container_port := 80, protocol := "tcp" }] :=
  ⟨by decide, by decide, by decide⟩

/-- C6: the Docker port-mapping parser yields host port 8080, container port
80 and protocol "tcp" on the literal "0.0.0.0:8080->80/tcp" at target 8080,
yields no match at target 9090, and on any mapping whose text after the arrow
has no slash a successful parse defaults the protocol to "tcp". -/
theorem C6_docker_mapping_parse :
    parse_docker_port_mapping "0.0.0.0:8080->80/tcp" 8080 = some (8080, 80, "tcp")
    ∧ parse_docker_port_mapping "0.0.0.0:8080->80/tcp" 9090 = none
    ∧ (∀ mapping target host_part container_part r,
        strSplitFirst "->" mapping = some (host_part, container_part) →
        strContainsSub container_part "/" = false →
        parse_docker_port_mapping mapping target = some r →
        r.2.2 = "tcp") := by
  refine ⟨by decide, by decide, ?_⟩
  intro mapping target host_part container_part r hsplit hnoslash hparse
  have h2 : strSplitFirst "/" container_part = none := by
    unfold strContainsSub at hnoslash
    unfold strSplitFirst
    cases h : charsSplitFirst "/".data container_part.data with
    | none => rfl
    | some p => rw [h] at hnoslash; simp at hnoslash
  unfold parse_docker_port_mapping at hparse
  rw [hsplit] at hparse
  dsimp only at hparse
  rw [h2] at hparse
  dsimp only at hparse
  cases hp : parseU16 (afterLastColon host_part) with
  | none => rw [hp] at hparse; simp at hparse
  | some host_port =>
    rw [hp] at hparse
    dsimp only at hparse
    split at hparse
    · simp at hparse
    · cases hc : parseU16 container_part with
      | none => rw [hc] at hparse; simp at hparse
      | some c =>
        rw [hc] at hparse
        cases hparse
        rfl

/-- C6 witness: the defaulting clause applied to the concrete mapping
"0.0.0.0:8080->80" (no protocol suffix) at target 8080. -/
theorem C6_witness : ((8080 : Nat), (80 : Nat), "tcp").2.2 = "tcp" :=
  C6_docker_mapping_parse.2.2 "0.0.0.0:8080->80" 8080 "0.0.0.0:8080" "80"
    (8080, 80, "tcp") (by decide) (by decide) (by decide)

/-- C7: the socket probe loop returns false at once on a successful bind,
true at once on error 10048, skips to the next family on any other error,
returns false when no outcome is the in-use error, and `probe_port_in_use` is
that loop over the IPv4 and IPv6 outcomes. -/
theorem C7_probe :
    (∀ rest, probe_loop (BindOutcome.ok :: rest) = false)
    ∧ (∀ rest, probe_loop (BindOutcome.err (some 10048) :: rest) = true)
    ∧ (∀ c rest, c ≠ some 10048 →
        probe_loop (BindOutcome.err c :: rest) = probe_loop rest)
    ∧ (∀ outcomes, BindOutcome.err (some 10048) ∉ outcomes → probe_loop outcomes = false)
    ∧ (∀ env : ProbeEnv, probe_port_in_use env = probe_loop [env.v4, env.v6]) := by
  refine ⟨fun rest => rfl, fun rest => by simp [probe_loop], ?_, ?_, fun env => rfl⟩
  · intro c rest h
    simp [probe_loop, h]
  · intro outcomes h
    induction outcomes with
    | nil => rfl
    | cons o rest ih =>
      cases o with
      | ok => rfl
      | err c =>
        have hc : c ≠ some 10048 := by
          intro hc; exact h (by simp [hc])
        have hrest : BindOutcome.err (some 10048) ∉ rest := by
          intro hm; exact h (List.mem_cons_of_mem _ hm)
        simp [probe_loop, hc, ih hrest]

/-- C7 witness: a permission-style error followed by a successful bind
reports the port free. -/
theorem C7_witness : probe_loop [BindOutcome.err (some 13), BindOutcome.ok] = false :=
  C7_probe.2.2.2.1 [BindOutcome.err (some 13), BindOutcome.ok] (by decide)

/-- C8: `suggest_free_port` returns the lowest port of the inclusive range
that the probe oracle reports free, returns none when the oracle reports the
whole range in use, and returns a port at most any free in-range port. -/
theorem C8_suggest_free_port :
    (∀ start stop f p, suggest_free_port start stop f = some p →
        start ≤ p ∧ p ≤ stop ∧ f p = false ∧ ∀ q, start ≤ q → q < p → f q = true)
    ∧ (∀ start stop f, (∀ p, start ≤ p → p ≤ stop → f p = true) →
        suggest_free_port start stop f = none)
    ∧ (∀ start stop f p, start ≤ p → p ≤ stop → f p = false →
        ∃ q, suggest_free_port start stop f = some q ∧ q ≤ p) := by
  refine ⟨?_, ?_, ?_⟩
  · intro start stop f p h
    unfold suggest_free_port at h
    have hn : stop + 1 - start ≠ 0 := by
      intro h0
      rw [h0] at h
      simp at h
    obtain ⟨h1, h2, h3, h4⟩ := range_find_some f (stop + 1 - start) start p h
    exact ⟨h1, by omega, h3, h4⟩
  · intro start stop f h
    unfold suggest_free_port
    exact range_find_none f start (stop + 1 - start) (fun q hq1 hq2 => h q hq1 (by omega))
  · intro start stop f p hp1 hp2 hp3
    cases hr : suggest_free_port start stop f with
    | none =>
      exfalso
      unfold suggest_free_port at hr
      rw [List.find?_eq_none] at hr
      have hmem : p ∈ List.range' start (stop + 1 - start) := by
        rw [List.mem_range'_1]; omega
      have hfp := hr p hmem
      simp [hp3] at hfp
    | some q =>
      refine ⟨q, rfl, ?_⟩
      unfold suggest_free_port at hr
      obtain ⟨h1, h2, h3, h4⟩ := range_find_some f (stop + 1 - start) start q hr
      by_contra hqp
      have hfp : f p = true := h4 p hp1 (by omega)
      rw [hp3] at hfp
      exact Bool.false_ne_true hfp

/-- C8 witness: a fully occupied range yields no suggestion. -/
theorem C8_witness : suggest_free_port 2 3 (fun _ => true) = none :=
  C8_suggest_free_port.2.1 2 3 (fun _ => true) (fun _ _ _ => rfl)

/-- C9: killing pid 0 is rejected synchronously with the descriptive error
and no side effect; the kill succeeds exactly when the pid is nonzero,
resolves in the snapshot, and the kill request on the process succeeds. -/
theorem C9_kill_process (pid : Nat) (snap : List (Nat × Proc)) :
    (pid = 0 → kill_process pid snap = (Except.error "Cannot kill PID 0", []))
    ∧ ((kill_process pid snap).1 = Except.ok ()
        ↔ pid ≠ 0 ∧ ∃ p, snap.lookup pid = some p ∧ p.kill_succeeds = true) := by
  constructor
  · intro h; subst h; rfl
  · unfold kill_process
    by_cases h0 : pid = 0
    · subst h0; simp
    · rw [if_neg (by simpa using h0)]
      cases hl : snap.lookup pid with
      | none => simp [h0]
      | some p =>
        cases hk : p.kill_succeeds with
        | false => simp [h0, hk]
        | true => simp [h0, hk]

/-- C9 witness: pid 0 against an empty snapshot is rejected with the
descriptive error and no recorded effect. -/
theorem C9_witness : kill_process 0 [] = (Except.error "Cannot kill PID 0", []) :=
  (C9_kill_process 0 []).1 rfl

/-- C10: every binding of an enhanced scan result, whatever its source,
carries the scanned port as its local port. -/
theorem C10_local_port (port : Nat) (env : ScanEnv) (b : PortBinding)
    (hb : b ∈ (list_bindings_enhanced port env).bindings) : b.local_port = port := by
  rw [enhanced_bindings_eq] at hb
  have hcommon : b ∈ (list_bindings port env.sockets env.snapshot).bindings
        ++ (list_bindings_enhanced port env).docker_bindings.map docker_to_binding
        ++ (((list_bindings_enhanced port env).wsl_bindings.filter
            (fun wb => !(!(list_bindings_enhanced port env).docker_bindings.isEmpty
                && is_docker_process wb))).map wsl_to_binding)
      → b.local_port = port := by
    intro hc
    rcases List.mem_append.mp hc with hc2 | hwsl
    · rcases List.mem_append.mp hc2 with hwin | hdock
      · exact list_bindings_local_port port env.sockets env.snapshot b hwin
      · obtain ⟨db, hdb, rfl⟩ := List.mem_map.mp hdock
        have hdp : db.host_port = port := by
          rw [enhanced_docker_eq] at hdb
          split at hdb
          · exact get_docker_port_bindings_target env.docker_stdout port db hdb
          · simp at hdb
        simpa [docker_to_binding] using hdp
    · obtain ⟨wb, hwb, rfl⟩ := List.mem_map.mp hwsl
      have hwb2 := (List.mem_filter.mp hwb).1
      rw [enhanced_wsl_eq] at hwb2
      have hwp : wb.port = port :=
        get_wsl_port_bindings_target env.wsl_outputs port wb hwb2
      simpa [wsl_to_binding] using hwp
  split at hb
  · rcases List.mem_append.mp hb with hc | hs
    · exact hcommon hc
    · rw [List.mem_singleton] at hs
      subst hs
      rfl
  · exact hcommon hb

/-- C10 witness: the placeholder binding of a concrete shadow scan carries
the scanned port 8080. -/
theorem C10_witness : (shadow_binding 8080).local_port = 8080 :=
  C10_local_port 8080
    { sockets := some [], snapshot := [],
      probe := ⟨BindOutcome.err (some 10048), BindOutcome.ok⟩,
      docker_running := false, docker_stdout := none, wsl_outputs := [] }
    (shadow_binding 8080) (by decide)
